import Mathlib

/-!
Shallow embedding of `src/scraps.py` (seafile-scraper), covering the parts
the claims are about: the retrying fetcher `BaseDownload._get`, the skip
logic of `BaseDownload.download`, the archive-export flow `ZipDownload.get`
(with its `get_zip_token` context manager), and one iteration of the crawl
loop in `Scraper.get`.

Python-level conventions of the embedding:
- network behaviour is an input: an environment maps each attempt index to
  the outcome of the corresponding `requests.get` call;
- a `requests` response is modelled by its status code, the JSON fields the
  program reads (`zip_token`, `error_msg`, `zipped`, `total`) as optional
  values (an absent key makes the corresponding dictionary access raise
  `KeyError`), and its raw content; `response.ok` is `status_code < 400`;
- Python exceptions are values of `PyError`; a function that can raise
  returns `Except PyError _`; the implicit `return None` falling off the
  end of a Python function is `Option.none` in the result;
- exception-message strings follow the source f-strings, with the
  single-quote characters of the originals dropped.
-/

namespace Scraps

/-- Python exception classes the embedded code can raise. -/
inductive PyError where
  | unboundLocalError
  | attributeError
  | keyError (key : String)
  | valueError (msg : String)
  | typeError
deriving DecidableEq

/-- A `requests` response as the program observes it: status code, the JSON
body fields the program ever reads (absent key = `none`), and raw content. -/
structure HttpResponse where
  statusCode : Nat
  zipToken : Option String
  errorMsg : Option String
  zipped : Option Nat
  total : Option Nat
  content : String
deriving DecidableEq

/-- `response.ok` of `requests`: true iff the status code is below 400. -/
def respOk (r : HttpResponse) : Bool :=
  r.statusCode < 400

/-- Outcome of one `requests.get` call inside `BaseDownload._get`: a raised
timeout, a raised connection error, a raised `MissingSchema`, or a response. -/
inductive AttemptOutcome where
  | timeout
  | connError
  | missingSchema
  | resp (r : HttpResponse)

/-- The body of the `while tries < self.tries` loop of `BaseDownload._get`
(src/scraps.py lines 114-135), iterated `remaining` times. `t` is the next
attempt index, `prev` the current value of the local variable `response`
(`none` when it is still unassigned). Returns the result of `_get` (`none`
models Python falling off the loop or the `break` after `MissingSchema`,
both of which return `None`) together with the number of `requests.get`
calls issued. On timeout/connection error with `response` still unassigned,
the line `if not response.ok` raises `UnboundLocalError`. -/
def getLoop (okayFail : List Nat) (env : Nat → AttemptOutcome) :
    Nat → Nat → Option HttpResponse → Except PyError (Option HttpResponse) × Nat
  | _, 0, _ => (Except.ok none, 0)
  | t, remaining + 1, prev =>
    match env t with
    | AttemptOutcome.missingSchema => (Except.ok none, 1)
    | AttemptOutcome.timeout =>
      match prev with
      | none => (Except.error PyError.unboundLocalError, 1)
      | some r =>
        if respOk r then (Except.ok (some r), 1)
        else if okayFail.contains r.statusCode then (Except.ok (some r), 1)
        else
          let rest := getLoop okayFail env (t + 1) remaining (some r)
          (rest.1, rest.2 + 1)
    | AttemptOutcome.connError =>
      match prev with
      | none => (Except.error PyError.unboundLocalError, 1)
      | some r =>
        if respOk r then (Except.ok (some r), 1)
        else if okayFail.contains r.statusCode then (Except.ok (some r), 1)
        else
          let rest := getLoop okayFail env (t + 1) remaining (some r)
          (rest.1, rest.2 + 1)
    | AttemptOutcome.resp r =>
      if respOk r then (Except.ok (some r), 1)
      else if okayFail.contains r.statusCode then (Except.ok (some r), 1)
      else
        let rest := getLoop okayFail env (t + 1) remaining (some r)
        (rest.1, rest.2 + 1)

/-- `BaseDownload._get(uri, okay_fail)` (src/scraps.py lines 112-135) with
`self.tries = tries`: the loop counter starts at -1 and is incremented at
the top of the loop, so the body runs for attempt indices `0 .. tries`,
that is `tries + 1` times. Returns the result together with the number of
network attempts issued. -/
def _get (tries : Nat) (okayFail : List Nat) (env : Nat → AttemptOutcome) :
    Except PyError (Option HttpResponse) × Nat :=
  getLoop okayFail env 0 (tries + 1) none

/-- The dictionary `json.loads(response.content)` of `ZipDownload.initiate_zip`
after the line `token_response['requests_status'] = response.status_code`:
the two optional JSON keys the program later reads, plus the recorded status. -/
structure TokenResponse where
  zipToken : Option String
  errorMsg : Option String
  requestsStatus : Nat
deriving DecidableEq

/-- Network environment of one `ZipDownload.get` run: the attempt outcomes of
the `_get` calls of `initiate_zip`, of `check_zip_status` per poll round, and
of `get_zip`. -/
structure ZipEnv where
  initiate : Nat → AttemptOutcome
  progress : Nat → Nat → AttemptOutcome
  zipFile : Nat → AttemptOutcome

/-- `ZipDownload.initiate_zip` (src/scraps.py lines 198-207). Takes the current
`self.zip_token` and returns the token-response dictionary together with the
new `self.zip_token`. `_get` is called with `okay_fail=[400]`. If `_get`
returned `None`, `json.loads(response.content)` raises `AttributeError`; if
the response is ok but its body has no `zip_token` key, the assignment
`self.zip_token = token_response['zip_token']` raises `KeyError`. -/
def initiate_zip (tries : Nat) (env : Nat → AttemptOutcome) (zipTok : Option String) :
    Except PyError (TokenResponse × Option String) :=
  match (_get tries [400] env).1 with
  | Except.error e => Except.error e
  | Except.ok none => Except.error PyError.attributeError
  | Except.ok (some r) =>
    let tokenResponse : TokenResponse :=
      { zipToken := r.zipToken, errorMsg := r.errorMsg, requestsStatus := r.statusCode }
    if respOk r then
      match r.zipToken with
      | none => Except.error (PyError.keyError "zip_token")
      | some zt => Except.ok (tokenResponse, some zt)
    else Except.ok (tokenResponse, zipTok)

/-- `ZipDownload.check_zip_status` (src/scraps.py lines 209-218). The
`attr_check('zip_token')` decorator raises `ValueError` when `self.zip_token`
is unset; a `None` from `_get` makes `json.loads(response.content)` raise
`AttributeError`. Returns the `zipped` and `total` fields of the parsed
progress dictionary (absent keys as `none`). -/
def check_zip_status (tries : Nat) (env : Nat → AttemptOutcome) (zipTok : Option String) :
    Except PyError (Option Nat × Option Nat) :=
  match zipTok with
  | none =>
    Except.error (PyError.valueError
      "Calling this method requires the attribute zip_token to be set")
  | some _ =>
    match (_get tries [] env).1 with
    | Except.error e => Except.error e
    | Except.ok none => Except.error PyError.attributeError
    | Except.ok (some r) => Except.ok (r.zipped, r.total)

/-- `ZipDownload.get_zip` (src/scraps.py lines 220-228): fetches the archive
bytes; `None.content` raises `AttributeError`. -/
def get_zip (tries : Nat) (env : Nat → AttemptOutcome) (zipTok : Option String) :
    Except PyError String :=
  match zipTok with
  | none =>
    Except.error (PyError.valueError
      "Calling this method requires the attribute zip_token to be set")
  | some _ =>
    match (_get tries [] env).1 with
    | Except.error e => Except.error e
    | Except.ok none => Except.error PyError.attributeError
    | Except.ok (some r) => Except.ok r.content

/-- `ZipDownload.cancel_zip` (src/scraps.py lines 230-237): guarded by
`attr_check('zip_token')`; when the token is set it performs exactly one
release POST to `ZIP_CANCEL`. Returns the outcome together with the number of
release requests actually issued. -/
def cancel_zip (zipTok : Option String) : Except PyError Unit × Nat :=
  match zipTok with
  | none =>
    (Except.error (PyError.valueError
      "Calling this method requires the attribute zip_token to be set"), 0)
  | some _ => (Except.ok (), 1)

/-- The `while True` polling loop inside `ZipDownload.get` (src/scraps.py
lines 266-272): each round calls `check_zip_status`; the f-string handed to
`self._print` evaluates `progress['zipped']` and then `progress['total']`
(raising `KeyError` on an absent key) before the comparison; on equality the
loop breaks, otherwise it sleeps and polls again. `fuel` bounds the number of
rounds the embedding unfolds; `none` means the Python loop has not exited
within `fuel` rounds. -/
def pollLoop (tries : Nat) (progressEnv : Nat → Nat → AttemptOutcome) (zipTok : Option String) :
    Nat → Nat → Option (Except PyError Unit)
  | _, 0 => none
  | round, fuel + 1 =>
    match check_zip_status tries (progressEnv round) zipTok with
    | Except.error e => some (Except.error e)
    | Except.ok (none, _) => some (Except.error (PyError.keyError "zipped"))
    | Except.ok (some _, none) => some (Except.error (PyError.keyError "total"))
    | Except.ok (some z, some t) =>
      if z == t then some (Except.ok ())
      else pollLoop tries progressEnv zipTok (round + 1) fuel

/-- The body of the `async with self.get_zip_token() as zip_token:` block of
`ZipDownload.get` (src/scraps.py lines 262-275), given the token response
`tr` yielded by the context manager and the `self.zip_token` value `st1` left
by `initiate_zip`. First statement: `self.zip_token = zip_token['zip_token']`
(raising `KeyError` when the key is absent); then the `== 400` check whose
raise reads `zip_token['error_msg']`; otherwise poll to completion and fetch
the archive. Returns the block's outcome together with the `self.zip_token`
value at block exit (`none` when polling has not finished within `fuel`). -/
def zipBody (tries : Nat) (env : ZipEnv) (path : String) (tr : TokenResponse)
    (st1 : Option String) (fuel : Nat) :
    Option (Except PyError String × Option String) :=
  match tr.zipToken with
  | none => some (Except.error (PyError.keyError "zip_token"), st1)
  | some zt =>
    if tr.requestsStatus == 400 then
      match tr.errorMsg with
      | none => some (Except.error (PyError.keyError "error_msg"), some zt)
      | some m =>
        some (Except.error (PyError.valueError
          ("The resource at " ++ path ++ " cannot be zipped because " ++ m)), some zt)
    else
      match pollLoop tries env.progress (some zt) 0 fuel with
      | none => none
      | some (Except.error e) => some (Except.error e, some zt)
      | some (Except.ok _) =>
        match get_zip tries env.zipFile (some zt) with
        | Except.error e => some (Except.error e, some zt)
        | Except.ok content => some (Except.ok content, some zt)

/-- The `finally` block of `ZipDownload.get_zip_token` (src/scraps.py lines
250-253), applied to the with-block's outcome and the `self.zip_token` value
at exit: `cancel_zip` runs unconditionally; if it raises (its `attr_check`
when the token is unset), that exception replaces the block's outcome, per
Python `finally` semantics. Returns the overall outcome and the number of
release requests issued. -/
def zipFinally (p : Except PyError String × Option String) : Except PyError String × Nat :=
  let c := cancel_zip p.2
  match c.1 with
  | Except.error e => (Except.error e, c.2)
  | Except.ok _ => (p.1, c.2)

/-- `ZipDownload.get` (src/scraps.py lines 255-275) together with the
`get_zip_token` context manager (lines 239-253). `initiate_zip` runs before
the context manager's `try`, so if it raises, the exception propagates with
no release request. Otherwise the with-block body runs and the `finally`
releases. Result `none` means the run has not terminated within `fuel` poll
rounds; otherwise `some (outcome, releaseRequests)`. -/
def zipGet (tries : Nat) (env : ZipEnv) (path : String) (zipTok0 : Option String)
    (fuel : Nat) : Option (Except PyError String × Nat) :=
  match initiate_zip tries env.initiate zipTok0 with
  | Except.error e => some (Except.error e, 0)
  | Except.ok (tr, st1) =>
    match zipBody tries env path tr st1 fuel with
    | none => none
    | some p => some (zipFinally p)

/-- The attributes of a `BaseDownload` object that `download` reads
(src/scraps.py lines 94-103 and 140-148): `base` and `path` default to
`None` in the constructor, `EXT` is the class constant. -/
structure DlConfig where
  base : Option String
  path : Option String
  ext : String
  verbose : Bool
  force : Bool
deriving DecidableEq

/-- Observable side effects of `BaseDownload.download`: invoking `self.get()`
(the network fetch of the resource), writing the fetched content to the
target path via `io_write`, and the verbose-gated log line for an already
existing file. -/
inductive Effect where
  | fetch
  | write (target : String) (content : String)
  | logExists (target : String)
deriving DecidableEq

/-- The expression `self.base + self.path + self.EXT` (src/scraps.py line
142): Python string concatenation raises `TypeError` as soon as `base` or
`path` is `None`. -/
def targetPath (c : DlConfig) : Except PyError String :=
  match c.base, c.path with
  | some b, some p => Except.ok (b ++ p ++ c.ext)
  | _, _ => Except.error PyError.typeError

/-- `BaseDownload.download` (src/scraps.py lines 140-148). `fsExists` is
`os.path.exists`; `getResult` is the outcome of `await self.get()`. Returns
the list of effects performed together with the call's outcome, in program
order: the target path is concatenated first, then the
`self.base is not None and (not os.path.exists(target_path) or self.force)`
guard selects fetching and writing, and the `elif os.path.exists` branch
emits the already-exists log line through the verbose-gated `self._print`. -/
def download (c : DlConfig) (fsExists : String → Bool) (getResult : Except PyError String) :
    List Effect × Except PyError Unit :=
  match targetPath c with
  | Except.error e => ([], Except.error e)
  | Except.ok tp =>
    if c.base.isSome && (!fsExists tp || c.force) then
      match getResult with
      | Except.error e => ([Effect.fetch], Except.error e)
      | Except.ok content => ([Effect.fetch, Effect.write tp content], Except.ok ())
    else if fsExists tp then
      ((if c.verbose then [Effect.logExists tp] else []), Except.ok ())
    else ([], Except.ok ())

/-- One frontier entry of `Scraper.get`: the dictionaries produced by
`get_files` / `get_folders` (and the synthetic root), with the `type`,
`path` and `name` keys the scheduler reads. -/
structure Entry where
  type : String
  path : String
  name : String
deriving DecidableEq

/-- Environment of one `Scraper.get` loop iteration: `dl e` is the outcome of
`dl.download()` for the `Download` / `ZipDownload` built from entry `e`
(`Except.ok` models the coroutine returning `None`, `Except.error` a raised
exception collected by `asyncio.gather(..., return_exceptions=True)`);
`listing e` is the outcome of `FolderDownload(...).get()` for entry `e`. -/
structure ScrapeEnv where
  dl : Entry → Except PyError Unit
  listing : Entry → Except PyError (List Entry)

/-- The batch-selection loop of `Scraper.get` (src/scraps.py lines 287-293):
`targets.pop()` removes the last element, repeated up to `chunking` times,
stopping early on `IndexError`. Returns the popped batch (in pop order) and
the remaining frontier. -/
def popChunk : Nat → List Entry → List Entry × List Entry
  | 0, ts => ([], ts)
  | n + 1, ts =>
    match ts.getLast? with
    | none => ([], ts)
    | some e =>
      let rest := popChunk n ts.dropLast
      (e :: rest.1, rest.2)

/-- `True` exactly for a raised exception collected by `asyncio.gather`,
i.e. the `issubclass(type(i), Exception)` test of src/scraps.py line 301. -/
def isErr : Except PyError Unit → Bool
  | Except.error _ => true
  | Except.ok _ => false

/-- `sum(new_targets, start=[])` (src/scraps.py line 310) over the gathered
listing results: adding a collected exception object to a list raises
`TypeError`, so any failed descent query aborts with `TypeError`; otherwise
the child lists are concatenated. -/
def sumLists : List (Except PyError (List Entry)) → Except PyError (List Entry)
  | [] => Except.ok []
  | Except.error _ :: _ => Except.error PyError.typeError
  | Except.ok xs :: rest =>
    match sumLists rest with
    | Except.error e => Except.error e
    | Except.ok ys => Except.ok (xs ++ ys)

/-- The intermediate and final data of one `while targets:` iteration of
`Scraper.get`: the popped batch `current`, the frontier remainder, the
gathered `runs`, the entries for which a descent query (folder listing) is
dispatched, and the new frontier (or the exception aborting the loop). -/
structure StepResult where
  batch : List Entry
  remaining : List Entry
  outcomes : List (Except PyError Unit)
  descendQueries : List Entry
  result : Except PyError (List Entry)

/-- One iteration of the `while targets:` loop of `Scraper.get`
(src/scraps.py lines 286-310): pop up to `chunking` entries; build a
`Download` for `type == 'file'` entries and a `ZipDownload` otherwise and
gather all their `download()` results with `return_exceptions=True`;
`retarget` keeps the entries whose run raised; descent queries
(`FolderDownload(...).get()`) are dispatched for the retargeted entries with
`type == 'folder'` and gathered with `return_exceptions=True`; finally
`targets += sum(new_targets, start=[])` extends the frontier (raising
`TypeError` when any gathered listing is an exception object). -/
def scraperStep (env : ScrapeEnv) (chunking : Nat) (targets : List Entry) : StepResult :=
  let pc := popChunk chunking targets
  let current := pc.1
  let runs := current.map env.dl
  let retarget := ((current.zip runs).filter (fun p => isErr p.2)).map Prod.fst
  let queried := retarget.filter (fun e => e.type == "folder")
  let newTargets := queried.map env.listing
  let res :=
    match sumLists newTargets with
    | Except.error e => Except.error e
    | Except.ok children => Except.ok (pc.2 ++ children)
  { batch := current, remaining := pc.2, outcomes := runs,
    descendQueries := queried, result := res }

/-- Each run of the `_get` loop issues at most one network attempt per
remaining iteration. -/
theorem getLoop_attempts_le (okayFail : List Nat) (env : Nat → AttemptOutcome) :
    ∀ remaining t prev, (getLoop okayFail env t remaining prev).2 ≤ remaining := by
  intro remaining
  induction remaining with
  | zero => intro t prev; simp [getLoop]
  | succ n ih =>
    intro t prev
    simp only [getLoop]
    cases env t with
    | missingSchema => simp
    | timeout =>
      cases prev with
      | none => simp
      | some r =>
        by_cases h1 : respOk r
        · simp [h1]
        · by_cases h2 : r.statusCode ∈ okayFail
          · simp [h1, h2]
          · have hrec := ih (t + 1) (some r)
            simp [h1, h2]
            omega
    | connError =>
      cases prev with
      | none => simp
      | some r =>
        by_cases h1 : respOk r
        · simp [h1]
        · by_cases h2 : r.statusCode ∈ okayFail
          · simp [h1, h2]
          · have hrec := ih (t + 1) (some r)
            simp [h1, h2]
            omega
    | resp r =>
      by_cases h1 : respOk r
      · simp [h1]
      · by_cases h2 : r.statusCode ∈ okayFail
        · simp [h1, h2]
        · have hrec := ih (t + 1) (some r)
          simp [h1, h2]
          omega

/-- C3: for every fetch configured with `self.tries = n`, `BaseDownload._get`
issues at most `n + 1` network GET attempts before returning a terminal
result, whatever the attempt outcomes (timeouts, connection errors and
non-success HTTP statuses alike). -/
theorem retry_attempt_bound (tries : Nat) (okayFail : List Nat) (env : Nat → AttemptOutcome) :
    (_get tries okayFail env).2 ≤ tries + 1 :=
  getLoop_attempts_le okayFail env (tries + 1) 0 none

/-- C4: the code does not retry after a timeout on the first attempt. When the
first `requests.get` raises a timeout, the local variable `response` is still
unassigned, so the line `if not response.ok` raises `UnboundLocalError`,
which escapes `_get` after a single network attempt instead of the
backoff-and-retry the spec describes (the same happens for a first-attempt
connection error). -/
theorem first_attempt_timeout_escapes :
    _get 5 [] (fun _ => AttemptOutcome.timeout) =
      (Except.error PyError.unboundLocalError, 1) ∧
    _get 5 [] (fun _ => AttemptOutcome.connError) =
      (Except.error PyError.unboundLocalError, 1) :=
  ⟨rfl, rfl⟩

/-- A 500 response with an empty body, used as a concrete non-success,
non-acceptable attempt outcome. -/
def resp500 : HttpResponse :=
  { statusCode := 500, zipToken := none, errorMsg := none,
    zipped := none, total := none, content := "" }

/-- C5 counterexample: with `tries = 1` and every attempt answering a 500
response (not in `okay_fail`), `_get` exhausts its 2 attempts and returns
Python `None` — not the last received response object as the claim states. -/
theorem exhausted_returns_none_counterexample :
    _get 1 [] (fun _ => AttemptOutcome.resp resp500) = (Except.ok none, 2) ∧
    (Except.ok none : Except PyError (Option HttpResponse)) ≠ Except.ok (some resp500) :=
  ⟨rfl, by simp⟩

/-- When every consulted attempt yields a non-success response outside
`okay_fail`, the `_get` loop runs all its iterations and falls off the end. -/
theorem getLoop_all_bad (okayFail : List Nat) (env : Nat → AttemptOutcome) :
    ∀ remaining t prev,
      (∀ k, k < remaining → ∃ r, env (t + k) = AttemptOutcome.resp r ∧
        respOk r = false ∧ okayFail.contains r.statusCode = false) →
      getLoop okayFail env t remaining prev = (Except.ok none, remaining) := by
  intro remaining
  induction remaining with
  | zero => intro t prev h; rfl
  | succ n ih =>
    intro t prev h
    obtain ⟨r, hr, hok, hcf⟩ := h 0 (Nat.succ_pos n)
    rw [Nat.add_zero] at hr
    simp only [getLoop]
    rw [hr]
    simp only [hok, hcf, Bool.false_eq_true, if_false]
    have h' : ∀ k, k < n → ∃ r2, env (t + 1 + k) = AttemptOutcome.resp r2 ∧
        respOk r2 = false ∧ okayFail.contains r2.statusCode = false := by
      intro k hk
      have hk1 := h (k + 1) (Nat.succ_lt_succ hk)
      rwa [show t + (k + 1) = t + 1 + k by omega] at hk1
    rw [ih (t + 1) (some r) h']

/-- C5 amended: if every attempt of a fetch receives a response whose status
is non-success and not in `okay_fail`, then after retries are exhausted
`BaseDownload._get` returns `None` (the Python function falls off the end of
its loop), not the last received response object; the caller observes the
absence of a response rather than the response itself. -/
theorem exhausted_returns_none (tries : Nat) (okayFail : List Nat)
    (env : Nat → AttemptOutcome)
    (h : ∀ t, t ≤ tries → ∃ r, env t = AttemptOutcome.resp r ∧
      respOk r = false ∧ okayFail.contains r.statusCode = false) :
    _get tries okayFail env = (Except.ok none, tries + 1) := by
  apply getLoop_all_bad
  intro k hk
  have hkb := h k (Nat.lt_succ_iff.mp hk)
  simpa using hkb

/-- Witness for the amended C5 at a concrete input: two attempts, both
answering a plain 500 response. -/
theorem exhausted_returns_none_witness :
    _get 1 [] (fun _ => AttemptOutcome.resp resp500) = (Except.ok none, 2) :=
  exhausted_returns_none 1 [] (fun _ => AttemptOutcome.resp resp500)
    (fun _ _ => ⟨resp500, rfl, rfl, rfl⟩)

/-- When the token response carries the `zip_token` key, every terminating
exit of the with-block of `ZipDownload.get` leaves `self.zip_token` set to
that token, whatever path the block took. -/
theorem zipBody_exit_token (tries : Nat) (env : ZipEnv) (path : String)
    (tr : TokenResponse) (st1 : Option String) (fuel : Nat) (zt : String)
    (hzt : tr.zipToken = some zt) :
    ∀ p, zipBody tries env path tr st1 fuel = some p → p.2 = some zt := by
  intro p hp
  simp only [zipBody, hzt] at hp
  by_cases h400 : (tr.requestsStatus == 400) = true
  · rw [if_pos h400] at hp
    cases hmsg : tr.errorMsg with
    | none => rw [hmsg] at hp; cases Option.some.inj hp; rfl
    | some m => rw [hmsg] at hp; cases Option.some.inj hp; rfl
  · rw [if_neg h400] at hp
    cases hpoll : pollLoop tries env.progress (some zt) 0 fuel with
    | none => rw [hpoll] at hp; exact absurd hp (by simp)
    | some pr =>
      rw [hpoll] at hp
      cases pr with
      | error e => cases Option.some.inj hp; rfl
      | ok u =>
        cases hz : get_zip tries env.zipFile (some zt) with
        | error e => rw [hz] at hp; cases Option.some.inj hp; rfl
        | ok content => rw [hz] at hp; cases Option.some.inj hp; rfl

/-- C1: for every `ZipDownload.get` invocation in which `initiate_zip`
successfully issues an export token (it returns without raising and the
embedded status is a success), exactly one release request (`cancel_zip`
POST) is performed before the call returns, on every exit path: successful
archive download, an error while polling, an error during the archive
fetch, or any other exception raised inside the with-block. -/
theorem token_released_exactly_once (tries : Nat) (env : ZipEnv) (path : String)
    (zipTok0 : Option String) (fuel : Nat) (tr : TokenResponse) (st1 : Option String)
    (res : Except PyError String) (posts : Nat)
    (hinit : initiate_zip tries env.initiate zipTok0 = Except.ok (tr, st1))
    (hok : tr.requestsStatus < 400)
    (hrun : zipGet tries env path zipTok0 fuel = some (res, posts)) :
    posts = 1 := by
  have hzt : ∃ zt, tr.zipToken = some zt := by
    simp only [initiate_zip] at hinit
    split at hinit
    · exact absurd hinit (by simp)
    · exact absurd hinit (by simp)
    · rename_i r heq
      by_cases hro : respOk r = true
      · rw [if_pos hro] at hinit
        cases hzt : r.zipToken with
        | none => rw [hzt] at hinit; exact absurd hinit (by simp)
        | some zt =>
          rw [hzt] at hinit
          have hpair := Except.ok.inj hinit
          refine ⟨zt, ?_⟩
          rw [← (Prod.mk.injEq _ _ _ _).mp hpair |>.1]
      · rw [if_neg hro] at hinit
        have hpair := Except.ok.inj hinit
        have htr : tr.requestsStatus = r.statusCode := by
          rw [← (Prod.mk.injEq _ _ _ _).mp hpair |>.1]
        rw [htr] at hok
        exact absurd (by simpa [respOk] using hok) hro
  obtain ⟨zt, hzt⟩ := hzt
  simp only [zipGet, hinit] at hrun
  cases hb : zipBody tries env path tr st1 fuel with
  | none => rw [hb] at hrun; exact absurd hrun (by simp)
  | some p =>
    rw [hb] at hrun
    have hfin : zipFinally p = (res, posts) := Option.some.inj hrun
    have hp2 : p.2 = some zt := zipBody_exit_token tries env path tr st1 fuel zt hzt p hb
    have hone : (zipFinally p).2 = 1 := by
      simp only [zipFinally]
      rw [hp2]
      rfl
    rw [hfin] at hone
    exact hone

/-- Network environment of a fully successful export: the initiation answers
200 with a token, the first progress poll reports completion, and the archive
fetch returns the bytes. -/
def zipHappyEnv : ZipEnv :=
  { initiate := fun _ => AttemptOutcome.resp
      { statusCode := 200, zipToken := some "ZT", errorMsg := none,
        zipped := none, total := none, content := "" },
    progress := fun _ _ => AttemptOutcome.resp
      { statusCode := 200, zipToken := none, errorMsg := none,
        zipped := some 3, total := some 3, content := "" },
    zipFile := fun _ => AttemptOutcome.resp
      { statusCode := 200, zipToken := none, errorMsg := none,
        zipped := none, total := none, content := "zipbytes" } }

/-- The token response `initiate_zip` produces under `zipHappyEnv`. -/
def zipHappyTr : TokenResponse :=
  { zipToken := some "ZT", errorMsg := none, requestsStatus := 200 }

/-- Witness for C1: under `zipHappyEnv` the initiation succeeds with a token,
the run terminates with the archive bytes, and exactly one release request
is issued. -/
theorem token_released_exactly_once_witness :
    initiate_zip 5 zipHappyEnv.initiate none = Except.ok (zipHappyTr, some "ZT") ∧
    zipHappyTr.requestsStatus < 400 ∧
    zipGet 5 zipHappyEnv "/folder" none 2 = some (Except.ok "zipbytes", 1) ∧
    (1 : Nat) = 1 :=
  ⟨rfl, by decide, rfl,
    token_released_exactly_once 5 zipHappyEnv "/folder" none 2 zipHappyTr (some "ZT")
      (Except.ok "zipbytes") 1 rfl (by decide) rfl⟩

/-- Network environment of a rejected export: the initiation answers 400 with
the realistic Seafile rejection body, which carries `error_msg` but no
`zip_token` key. The other endpoints are never reached. -/
def zipRejectEnv : ZipEnv :=
  { initiate := fun _ => AttemptOutcome.resp
      { statusCode := 400, zipToken := none, errorMsg := some "Folder too large",
        zipped := none, total := none, content := "" },
    progress := fun _ _ => AttemptOutcome.timeout,
    zipFile := fun _ => AttemptOutcome.timeout }

/-- C2 (code-bug evidence): when the export initiation answers a 400 whose
JSON body carries only `error_msg` (no `zip_token` key), `ZipDownload.get`
does not surface the descriptive rejection message. The first statement of
the with-block, `self.zip_token = zip_token['zip_token']`, raises `KeyError`
before the 400 check at line 263 is reached; the `finally` block then calls
`cancel_zip`, whose `attr_check` raises `ValueError` because `self.zip_token`
was never set, and that `ValueError` is what reaches the caller — the server
message "Folder too large" is lost. No release request is issued (the second
half of the claim holds), but the intended descriptive failure of line 264
is unreachable for this body shape. -/
theorem rejected_export_loses_message :
    zipGet 5 zipRejectEnv "/folder" none 1 =
      some (Except.error (PyError.valueError
        "Calling this method requires the attribute zip_token to be set"), 0) ∧
    zipRejectEnv.initiate 0 = AttemptOutcome.resp
      { statusCode := 400, zipToken := none, errorMsg := some "Folder too large",
        zipped := none, total := none, content := "" } :=
  ⟨rfl, rfl⟩

/-- Environment in which every download raises and every descent query
(folder listing) raises as well. -/
def failingScrapeEnv : ScrapeEnv :=
  { dl := fun _ => Except.error PyError.attributeError,
    listing := fun _ => Except.error PyError.attributeError }

/-- C6 (code-bug evidence): when a failed frontier entry's descent query
itself fails, `Scraper.get` does not drop the entry and continue — the line
`targets += sum(new_targets, start=[])` adds the exception object collected
by `asyncio.gather(..., return_exceptions=True)` to a list, raising
`TypeError` and aborting the whole crawl. Concretely: one folder entry whose
zip download fails and whose folder listing also fails makes the loop
iteration end in `TypeError` instead of a new frontier. -/
theorem descent_failure_aborts_crawl :
    (scraperStep failingScrapeEnv 5 [{ type := "folder", path := "/a", name := "A" }]).result =
      Except.error PyError.typeError :=
  rfl

/-- Environment in which every download raises but every descent query
succeeds, returning one child. -/
def fileFailScrapeEnv : ScrapeEnv :=
  { dl := fun _ => Except.error PyError.attributeError,
    listing := fun _ => Except.ok [{ type := "file", path := "/f/x.txt", name := "x.txt" }] }

/-- C7 counterexample: a failed entry of kind File is not resolved by
descent. With a single failed file entry and a listing source that would
return a child for its path, `Scraper.get` dispatches no descent query
(`retarget` is filtered by `i['type'] == 'folder'`) and appends nothing to
the frontier — contradicting the claim that every failed entry, File or
Folder, is descended. -/
theorem failed_file_entry_not_descended :
    (scraperStep fileFailScrapeEnv 5 [{ type := "file", path := "/f.txt", name := "f" }]).descendQueries = [] ∧
    (scraperStep fileFailScrapeEnv 5 [{ type := "file", path := "/f.txt", name := "f" }]).result =
      Except.ok [] ∧
    fileFailScrapeEnv.listing { type := "file", path := "/f.txt", name := "f" } =
      Except.ok [{ type := "file", path := "/f/x.txt", name := "x.txt" }] :=
  ⟨rfl, rfl, rfl⟩

/-- The child lists of a successful descent query; an exception yields `[]`
(only used under the hypothesis that the query succeeded). -/
def okChildren : Except PyError (List Entry) → List Entry
  | Except.ok xs => xs
  | Except.error _ => []

/-- Keeping the failed entries of a batch: zipping a list with its own map
and filtering on the outcome component is filtering on the outcome of each
element. -/
theorem zip_map_filter_eq (f : Entry → Except PyError Unit) :
    ∀ l : List Entry,
      (((l.zip (l.map f)).filter (fun p => isErr p.2)).map Prod.fst) =
        l.filter (fun e => isErr (f e)) := by
  intro l
  induction l with
  | nil => rfl
  | cons a l ih =>
    simp only [List.map_cons, List.zip_cons_cons, List.filter_cons]
    cases h : isErr (f a) <;> simp [h, ih]

/-- Composing the two filters applied to a batch: failed first, then
folder-typed. -/
theorem filter_failed_folder (f : Entry → Except PyError Unit) :
    ∀ l : List Entry,
      (l.filter (fun e => isErr (f e))).filter (fun e => e.type == "folder") =
        l.filter (fun e => isErr (f e) && (e.type == "folder")) := by
  intro l
  induction l with
  | nil => rfl
  | cons a l ih =>
    cases h1 : isErr (f a) <;> cases h2 : (a.type == "folder") <;>
      simp [List.filter_cons, h1, h2, ih]

/-- `sum(new_targets, start=[])` over listing results that all succeeded:
the concatenation of the child lists, in query order. -/
theorem sumLists_all_ok (g : Entry → Except PyError (List Entry)) :
    ∀ l : List Entry, (∀ e ∈ l, ∃ cs, g e = Except.ok cs) →
      sumLists (l.map g) = Except.ok ((l.map (fun e => okChildren (g e))).flatten) := by
  intro l
  induction l with
  | nil => intro h; rfl
  | cons a l ih =>
    intro h
    obtain ⟨cs, hcs⟩ := h a (List.mem_cons_self a l)
    simp only [List.map_cons, List.flatten_cons]
    rw [hcs]
    simp only [sumLists]
    rw [ih (fun e he => h e (List.mem_cons_of_mem a he))]
    simp [okChildren, hcs]

/-- C7 amended: in each `Scraper.get` iteration the descent queries are
dispatched exactly for the failed batch entries whose kind is Folder (failed
File entries are dropped without a descent query), and — when every dispatched
descent query succeeds — the new frontier is the remaining frontier followed
by all children returned by those queries. -/
theorem descend_fallback_folders_only (env : ScrapeEnv) (chunking : Nat)
    (targets : List Entry)
    (hlist : ∀ e ∈ (scraperStep env chunking targets).descendQueries,
      ∃ cs, env.listing e = Except.ok cs) :
    (scraperStep env chunking targets).descendQueries =
      (scraperStep env chunking targets).batch.filter
        (fun e => isErr (env.dl e) && (e.type == "folder")) ∧
    (scraperStep env chunking targets).result =
      Except.ok ((scraperStep env chunking targets).remaining ++
        (((scraperStep env chunking targets).descendQueries.map
          (fun e => okChildren (env.listing e))).flatten)) := by
  have hq : (scraperStep env chunking targets).descendQueries =
      (popChunk chunking targets).1.filter
        (fun e => isErr (env.dl e) && (e.type == "folder")) := by
    show ((((popChunk chunking targets).1.zip
        ((popChunk chunking targets).1.map env.dl)).filter
        (fun p => isErr p.2)).map Prod.fst).filter (fun e => e.type == "folder") = _
    rw [zip_map_filter_eq env.dl]
    exact filter_failed_folder env.dl _
  refine ⟨hq, ?_⟩
  have hres : (scraperStep env chunking targets).result =
      (match sumLists ((scraperStep env chunking targets).descendQueries.map env.listing) with
       | Except.error e => Except.error e
       | Except.ok children => Except.ok ((popChunk chunking targets).2 ++ children)) := rfl
  rw [hres, sumLists_all_ok env.listing _ hlist]
  rfl

/-- A frontier with one folder entry whose archive export fails and whose
descent query returns two children. -/
def folderFailScrapeEnv : ScrapeEnv :=
  { dl := fun _ => Except.error PyError.attributeError,
    listing := fun _ => Except.ok
      [{ type := "file", path := "/sub/a.txt", name := "a.txt" },
       { type := "folder", path := "/sub/b", name := "b" }] }

/-- Witness for the amended C7: the failed folder entry is descended and the
frontier afterwards holds exactly the two children its listing returned. -/
theorem descend_fallback_folders_only_witness :
    (∀ e ∈ (scraperStep folderFailScrapeEnv 5
        [{ type := "folder", path := "/sub", name := "sub" }]).descendQueries,
      ∃ cs, folderFailScrapeEnv.listing e = Except.ok cs) ∧
    (scraperStep folderFailScrapeEnv 5
        [{ type := "folder", path := "/sub", name := "sub" }]).result =
      Except.ok
        [{ type := "file", path := "/sub/a.txt", name := "a.txt" },
         { type := "folder", path := "/sub/b", name := "b" }] := by
  refine ⟨fun e _ => ⟨_, rfl⟩, ?_⟩
  have h := descend_fallback_folders_only folderFailScrapeEnv 5
    [{ type := "folder", path := "/sub", name := "sub" }] (fun e _ => ⟨_, rfl⟩)
  rw [h.2]
  rfl

/-- The batch-selection loop pops exactly `min chunking |frontier|` entries. -/
theorem popChunk_length :
    ∀ (n : Nat) (ts : List Entry), (popChunk n ts).1.length = min n ts.length := by
  intro n
  induction n with
  | zero => intro ts; simp [popChunk]
  | succ m ih =>
    intro ts
    simp only [popChunk]
    cases hl : ts.getLast? with
    | none =>
      have hts : ts = [] := List.getLast?_eq_none_iff.mp hl
      subst hts
      simp
    | some e =>
      have hne : ts ≠ [] := by
        intro h
        subst h
        simp at hl
      have hlen : ts.dropLast.length = ts.length - 1 := List.length_dropLast ts
      have hpos : 1 ≤ ts.length := by
        cases ts with
        | nil => exact absurd rfl hne
        | cons a l => simp
      simp only [List.length_cons, ih]
      omega

/-- C8: in every crawl-loop iteration, at most `chunking` entries are removed
from the frontier to form the batch (exactly `min chunking |frontier|`), and
the partition/descent step consumes a complete outcome list: one outcome per
batch member, each member's outcome being its own download's result,
unaffected by the failures of its siblings. -/
theorem batch_bounded_and_complete (env : ScrapeEnv) (chunking : Nat)
    (targets : List Entry) :
    (scraperStep env chunking targets).batch.length = min chunking targets.length ∧
    (scraperStep env chunking targets).batch.length ≤ chunking ∧
    (scraperStep env chunking targets).outcomes =
      (scraperStep env chunking targets).batch.map env.dl ∧
    (scraperStep env chunking targets).outcomes.length =
      (scraperStep env chunking targets).batch.length := by
  refine ⟨popChunk_length chunking targets, ?_, rfl, ?_⟩
  · have h := popChunk_length chunking targets
    show (popChunk chunking targets).1.length ≤ chunking
    omega
  · show ((popChunk chunking targets).1.map env.dl).length =
      (popChunk chunking targets).1.length
    simp

/-- A download object with verbosity disabled (the constructor and CLI
default) whose target file already exists. -/
def quietCfg : DlConfig :=
  { base := some "/out", path := some "/a.txt", ext := "", verbose := false, force := false }

/-- The same download object with verbosity enabled. -/
def verboseCfg : DlConfig :=
  { base := some "/out", path := some "/a.txt", ext := "", verbose := true, force := false }

/-- C9 counterexample: with verbosity disabled (the constructor default and
the CLI default), skipping an already-existing file emits no log line at
all — `self._print` is gated on `self.verbose` — so the claim's "a log line
records that the file already exists" fails; the fetch/write part of the
claim does hold (the effect list is empty). -/
theorem skip_existing_no_log_when_quiet :
    download quietCfg (fun _ => true) (Except.ok "bytes") = ([], Except.ok ()) ∧
    Effect.logExists "/out/a.txt" ∉
      (download quietCfg (fun _ => true) (Except.ok "bytes")).1 := by
  refine ⟨rfl, ?_⟩
  intro h
  rw [show (download quietCfg (fun _ => true) (Except.ok "bytes")).1 = [] from rfl] at h
  exact List.not_mem_nil _ h

/-- C9 amended: when the target path exists and `force` is disabled,
`BaseDownload.download` performs no fetch of the resource's bytes and no
write — the existing file is left untouched — and, when verbosity is
enabled, a log line records that the file already exists (with verbosity
disabled nothing is logged). -/
theorem skip_existing_file (c : DlConfig) (fsExists : String → Bool)
    (getResult : Except PyError String) (b p : String)
    (hb : c.base = some b) (hp : c.path = some p)
    (hex : fsExists (b ++ p ++ c.ext) = true) (hf : c.force = false) :
    (download c fsExists getResult).1 =
      (if c.verbose then [Effect.logExists (b ++ p ++ c.ext)] else []) ∧
    (download c fsExists getResult).2 = Except.ok () ∧
    Effect.fetch ∉ (download c fsExists getResult).1 ∧
    ∀ t s, Effect.write t s ∉ (download c fsExists getResult).1 := by
  have hdl : download c fsExists getResult =
      ((if c.verbose then [Effect.logExists (b ++ p ++ c.ext)] else []), Except.ok ()) := by
    simp only [download, targetPath, hb, hp]
    simp [hex, hf]
  refine ⟨by rw [hdl], by rw [hdl], ?_, ?_⟩
  · rw [hdl]
    by_cases hv : c.verbose <;> simp [hv]
  · intro t s
    rw [hdl]
    by_cases hv : c.verbose <;> simp [hv]

/-- Witness for C9 at a concrete input: verbose object, file already present;
the only effect is the already-exists log line. -/
theorem skip_existing_file_witness :
    (download verboseCfg (fun _ => true) (Except.ok "x")).1 =
      [Effect.logExists "/out/a.txt"] ∧
    Effect.fetch ∉ (download verboseCfg (fun _ => true) (Except.ok "x")).1 := by
  have h := skip_existing_file verboseCfg (fun _ => true) (Except.ok "x")
    "/out" "/a.txt" rfl rfl rfl rfl
  exact ⟨by rw [h.1]; rfl, h.2.2.1⟩

/-- C10: for every download object whose `base` attribute is unset (its
constructor default `None`), `download()` raises `TypeError` while evaluating
`self.base + self.path + self.EXT`, before the `self.base is not None` guard
is reached: no fetch, no write and no log happen, whatever the filesystem
state or the force flag, so the guard's no-base branch is unreachable. -/
theorem download_without_base_raises (c : DlConfig) (fsExists : String → Bool)
    (getResult : Except PyError String) (hb : c.base = none) :
    download c fsExists getResult = ([], Except.error PyError.typeError) := by
  obtain ⟨base, path, ext, verbose, force⟩ := c
  have hb2 : base = none := hb
  subst hb2
  cases path <;> rfl

/-- Witness for C10: a fresh object with `base` unset raises `TypeError` and
performs no effect. -/
theorem download_without_base_raises_witness :
    ((⟨none, some "/a.txt", "", false, false⟩ : DlConfig).base = none) ∧
    download ⟨none, some "/a.txt", "", false, false⟩ (fun _ => true) (Except.ok "x") =
      ([], Except.error PyError.typeError) :=
  ⟨rfl, download_without_base_raises ⟨none, some "/a.txt", "", false, false⟩
    (fun _ => true) (Except.ok "x") rfl⟩

end Scraps
